import Mathlib

/-!
Verification of the download-orchestrator's job store and worker protocol
(`app/repository.py`, `app/queue_manager.py`, legacy `app/main.py`).

The embedding is shallow: each SQL conditional UPDATE of
`DownloadRepository` becomes a Lean function on a `Row` record (returning
`Option Row`, `none` = the WHERE clause matched zero rows), the metadata
serialisation (`json.dumps` with the `default=str` fallback) is modelled
over an inductive type of Python values, the progress hook is a pure
function of its inputs plus the closure state `(last_flush, last_bytes)`,
and the legacy `/delete` handler's path check is modelled with faithful
translations of `posixpath.join` / `posixpath.commonpath`.

Numeric telemetry (`REAL` columns, float arithmetic in the hook) is
modelled over `ℚ`; timestamps are the opaque ISO strings the code writes.
-/

/-! ### Python values (for the metadata blob)

`PyVal` models the Python values that can appear in the extractor info
dict: JSON scalars, lists, dicts, plus `pyObj r` standing for an arbitrary
non-JSON-serialisable object whose `str()` is `r`. Lists and dicts are
spelled as mutual inductives so that recursion and induction over the
nesting are structural. -/

mutual
inductive PyVal where
  | pyNone : PyVal
  | pyBool : Bool → PyVal
  | pyInt : Int → PyVal
  | pyStr : String → PyVal
  | pyObj : String → PyVal
  | pyList : PyList → PyVal
  | pyDict : PyDict → PyVal

inductive PyList where
  | nil : PyList
  | cons : PyVal → PyList → PyList

inductive PyDict where
  | nil : PyDict
  | cons : PyVal → PyVal → PyDict → PyDict
end

/-- Python `dict.get(key)` for a string key: a non-`str` Python key never
compares equal to a string, so only `pyStr` keys are compared. -/
def dictGet (k : String) : PyDict → Option PyVal
  | .nil => none
  | .cons (.pyStr s) v rest => if s = k then some v else dictGet k rest
  | .cons _ _ rest => dictGet k rest

/-- Hex digit for `\uXXXX` escapes. -/
def hexDigit (n : Nat) : Char :=
  if n < 10 then Char.ofNat (48 + n) else Char.ofNat (87 + n)

/-- Four-digit hex rendering of a code point below 0x10000. -/
def hex4 (n : Nat) : String :=
  String.mk [hexDigit (n / 4096 % 16), hexDigit (n / 256 % 16),
             hexDigit (n / 16 % 16), hexDigit (n % 16)]

/-- Escaping of one character inside a JSON string literal, as the `json`
module does with `ensure_ascii=False`. -/
def jsonEscapeChar (c : Char) : String :=
  if c = '"' then "\\\""
  else if c = '\\' then "\\\\"
  else if c = '\n' then "\\n"
  else if c = '\t' then "\\t"
  else if c = '\r' then "\\r"
  else if c = Char.ofNat 8 then "\\b"
  else if c = Char.ofNat 12 then "\\f"
  else if c.toNat < 32 then "\\u" ++ hex4 c.toNat
  else String.singleton c

/-- A JSON string literal. -/
def pyJsonQuote (s : String) : String :=
  "\"" ++ String.join (s.data.map jsonEscapeChar) ++ "\""

/-- `json.dumps`' rendering of a non-string dict key. Keys that are not
`str`/`int`/`bool`/`None` raise `TypeError` regardless of `default=`,
because `default` is only consulted for values. -/
def keyRepr : PyVal → Except String String
  | .pyStr s => .ok s
  | .pyBool true => .ok "true"
  | .pyBool false => .ok "false"
  | .pyNone => .ok "null"
  | .pyInt n => .ok (toString n)
  | _ => .error "TypeError"

mutual
/-- `json.dumps(value, ensure_ascii=False)`; with `useDefault = true` the
`default=str` keyword is passed, so an otherwise unserialisable object is
replaced by its `str()` before encoding. -/
def dumpsVal (useDefault : Bool) : PyVal → Except String String
  | .pyNone => .ok "null"
  | .pyBool true => .ok "true"
  | .pyBool false => .ok "false"
  | .pyInt n => .ok (toString n)
  | .pyStr s => .ok (pyJsonQuote s)
  | .pyObj r => if useDefault then .ok (pyJsonQuote r) else .error "TypeError"
  | .pyList xs => (dumpsList useDefault xs).map
      (fun parts => "[" ++ String.intercalate ", " parts ++ "]")
  | .pyDict es => (dumpsDict useDefault es).map
      (fun parts => "\x7b" ++ String.intercalate ", " parts ++ "\x7d")

/-- Encoded elements of a list, left to right. -/
def dumpsList (useDefault : Bool) : PyList → Except String (List String)
  | .nil => .ok []
  | .cons x xs => do
      let s ← dumpsVal useDefault x
      let rest ← dumpsList useDefault xs
      .ok (s :: rest)

/-- Encoded `"key": value` entries of a dict, in insertion order. -/
def dumpsDict (useDefault : Bool) : PyDict → Except String (List String)
  | .nil => .ok []
  | .cons k v es => do
      let ks ← keyRepr k
      let vs ← dumpsVal useDefault v
      let rest ← dumpsDict useDefault es
      .ok ((pyJsonQuote ks ++ ": " ++ vs) :: rest)
end

/-- `DownloadRepository._to_json_string`: try `json.dumps(value,
ensure_ascii=False)`; on `TypeError` retry with `default=str`. Any other
exception (and a `TypeError` raised again by the retry, e.g. for a bad
dict key) propagates. -/
def to_json_string (value : PyVal) : Except String String :=
  match dumpsVal false value with
  | .ok s => .ok s
  | .error e => if e = "TypeError" then dumpsVal true value else .error e

/-- The Python types `json.dumps` accepts as dict keys. -/
def isKeyType : PyVal → Bool
  | .pyStr _ => true
  | .pyInt _ => true
  | .pyBool _ => true
  | .pyNone => true
  | _ => false

mutual
/-- Keys acceptable to the JSON encoder, at every nesting level. -/
def validKeysVal : PyVal → Bool
  | .pyList xs => validKeysList xs
  | .pyDict es => validKeysDict es
  | _ => true

def validKeysList : PyList → Bool
  | .nil => true
  | .cons x xs => validKeysVal x && validKeysList xs

def validKeysDict : PyDict → Bool
  | .nil => true
  | .cons k v es => isKeyType k && validKeysVal v && validKeysDict es
end

/-! ### POSIX path helpers (faithful to `posixpath` as used by the code) -/

/-- `s.startswith(pre)`. -/
def strStartsWith (s pre : String) : Bool :=
  pre.data.isPrefixOf s.data

/-- `s.endswith(suf)`. -/
def strEndsWith (s suf : String) : Bool :=
  suf.data.reverse.isPrefixOf s.data.reverse

/-- Python `str.split(sep)` over characters (keeps empty fields). -/
def splitOnChar (sep : Char) : List Char → List (List Char)
  | [] => [[]]
  | c :: cs =>
      let rest := splitOnChar sep cs
      if c = sep then [] :: rest
      else
        match rest with
        | [] => [[c]]
        | g :: gs => (c :: g) :: gs

/-- Join path components with `/`. -/
def joinComps (l : List String) : String :=
  String.join (l.intersperse "/")

/-- `posixpath.join(a, b)` for two components. -/
def posixJoin (a b : String) : String :=
  if strStartsWith b "/" then b
  else if a = "" ∨ strEndsWith a "/" then a ++ b
  else a ++ "/" ++ b

/-- The components `posixpath.commonpath` keeps: split on `/`, drop empty
components and `.` (but keep `..` — `commonpath` does not normalise). -/
def pathComps (p : String) : List String :=
  ((splitOnChar '/' p.data).map String.mk).filter (fun c => !(c == "") && !(c == "."))

/-- Longest common prefix of two component lists; equals the
`s1 = min, s2 = max, stop at first difference` loop of
`posixpath.commonpath` on two lists. -/
def lcpComps : List String → List String → List String
  | x :: xs, y :: ys => if x = y then x :: lcpComps xs ys else []
  | _, _ => []

/-- `posixpath.commonpath([a, b])` for two absolute paths. -/
def commonpath2 (a b : String) : String :=
  "/" ++ joinComps (lcpComps (pathComps a) (pathComps b))

/-- Lexical resolution of `..` components of an absolute path (what
`os.path.realpath` computes in a symlink-free tree). -/
def resolveDots (comps : List String) : List String :=
  comps.foldl (fun acc c => if c = ".." then acc.dropLast else acc ++ [c]) []

/-- The real location of an absolute path in a symlink-free tree. -/
def normAbs (p : String) : String :=
  "/" ++ joinComps (resolveDots (pathComps p))

/-- Whether absolute path `p` is the root `base` or lies strictly under it. -/
def isUnderRoot (base p : String) : Bool :=
  p == base || strStartsWith p (base ++ "/")

/-- `posixpath.splitext`: split off the extension at the last dot of the
last component, unless every character of the component before that dot is
itself a dot. -/
def splitext (p : String) : String × String :=
  let cs := p.data
  let sepIndex : Int := match (cs.reverse.indexOf '/' : Nat) with
    | n => if n < cs.length then (cs.length - 1 - n : Int) else -1
  let dotIndex : Int := match (cs.reverse.indexOf '.' : Nat) with
    | n => if n < cs.length then (cs.length - 1 - n : Int) else -1
  if sepIndex < dotIndex then
    let start := (sepIndex + 1).toNat
    let between := (cs.drop start).take (dotIndex.toNat - start)
    if between.any (fun c => c ≠ '.') then
      (String.mk (cs.take dotIndex.toNat), String.mk (cs.drop dotIndex.toNat))
    else (p, "")
  else (p, "")

/-- Python `round(x, 2)` over `ℚ`: scale by 100 and round half to even. -/
def roundHalfEven (q : ℚ) : Int :=
  let f := ⌊q⌋
  let r := q - f
  if r < 1/2 then f
  else if 1/2 < r then f + 1
  else if f % 2 = 0 then f else f + 1

/-- Two-decimal rounding as the hook's `round(..., 2)`. -/
def round2 (q : ℚ) : ℚ := (roundHalfEven (q * 100) : ℚ) / 100

/-! ### The `downloads` row (all columns of the schema in `app/db.py`) -/

structure Row where
  id : String
  requested_url : String
  canonical_url : Option String
  webpage_url : Option PyVal
  extractor : Option PyVal
  extractor_key : Option PyVal
  video_id : Option PyVal
  title : Option PyVal
  uploader : Option PyVal
  uploader_id : Option PyVal
  channel : Option PyVal
  channel_id : Option PyVal
  duration_seconds : Option PyVal
  upload_date : Option PyVal
  thumbnail_remote_url : Option PyVal
  thumbnail_local_path : Option String
  media_local_path : Option String
  media_ext : Option PyVal
  preset : String
  status : String
  queue_position : Option Int
  progress_percent : Option ℚ
  downloaded_bytes : Option Int
  total_bytes : Option Int
  speed_bps : Option ℚ
  eta_seconds : Option Int
  runtime_profile : Option String
  attempt_current : Int
  attempt_max : Int
  last_exception_type : Option String
  error_message : Option String
  metadata_json : Option String
  created_at : String
  queued_at : Option String
  started_at : Option String
  paused_at : Option String
  completed_at : Option String
  failed_at : Option String
  updated_at : String

/-- `DownloadRepository.create_download`: the INSERT's explicit column
values; every column not named in the INSERT is NULL. -/
def create_download (download_id requested_url preset : String) (now : String) : Row where
  id := download_id
  requested_url := requested_url
  canonical_url := some requested_url
  webpage_url := none
  extractor := none
  extractor_key := none
  video_id := none
  title := none
  uploader := none
  uploader_id := none
  channel := none
  channel_id := none
  duration_seconds := none
  upload_date := none
  thumbnail_remote_url := none
  thumbnail_local_path := none
  media_local_path := none
  media_ext := none
  preset := preset
  status := "queued"
  queue_position := none
  progress_percent := some 0
  downloaded_bytes := some 0
  total_bytes := none
  speed_bps := none
  eta_seconds := none
  runtime_profile := none
  attempt_current := 0
  attempt_max := 1
  last_exception_type := none
  error_message := none
  metadata_json := none
  created_at := now
  queued_at := some now
  started_at := none
  paused_at := none
  completed_at := none
  failed_at := none
  updated_at := now

/-! ### Conditional transitions of `DownloadRepository`

Each mirrors one UPDATE; `none` models "the WHERE clause matched zero
rows, rowcount = 0, the method returned False". -/

/-- `set_downloading`: guard `status IN ('queued', 'retrying')`;
`started_at = COALESCE(started_at, now)`. -/
def set_downloading (attempt_current attempt_max : Int) (runtime_profile : String)
    (now : String) (r : Row) : Option Row :=
  if r.status = "queued" ∨ r.status = "retrying" then
    some { r with
      status := "downloading"
      started_at := some (r.started_at.getD now)
      attempt_current := attempt_current
      attempt_max := attempt_max
      runtime_profile := some runtime_profile
      error_message := none
      last_exception_type := none
      updated_at := now }
  else none

/-- `pause_queued`: guard `status = 'queued'`. -/
def pause_queued (now : String) (r : Row) : Option Row :=
  if r.status = "queued" then
    some { r with status := "paused", paused_at := some now, updated_at := now }
  else none

/-- `resume_paused`: guard `status = 'paused'`. -/
def resume_paused (now : String) (r : Row) : Option Row :=
  if r.status = "paused" then
    some { r with
      status := "queued"
      queued_at := some now
      paused_at := none
      error_message := none
      eta_seconds := none
      speed_bps := none
      updated_at := now }
  else none

/-- `retry_download`: guard `status IN ('failed', 'paused')`. -/
def retry_download (now : String) (r : Row) : Option Row :=
  if r.status = "failed" ∨ r.status = "paused" then
    some { r with
      status := "queued"
      queued_at := some now
      paused_at := none
      failed_at := none
      completed_at := none
      error_message := none
      last_exception_type := none
      progress_percent := some 0
      downloaded_bytes := some 0
      total_bytes := none
      speed_bps := none
      eta_seconds := none
      attempt_current := 0
      attempt_max := r.attempt_max + 1
      updated_at := now }
  else none

/-- `QueueManager.retry_job`: wraps `retry_download`, answering
`(False, "invalid_state")` when the guard rejects. -/
def retry_job (now : String) (r : Row) : Bool × String × Row :=
  match retry_download now r with
  | some r' => (true, "queued", r')
  | none => (false, "invalid_state", r)

/-- `set_paused`: unconditional on the id. -/
def set_paused (message : String) (now : String) (r : Row) : Row :=
  { r with
    status := "paused"
    paused_at := some now
    error_message := some message
    speed_bps := none
    eta_seconds := none
    updated_at := now }

/-- `set_failed`: unconditional on the id; note it does not touch
`completed_at`. -/
def set_failed (message exception_type runtime_profile : String)
    (attempt_current attempt_max : Int) (now : String) (r : Row) : Row :=
  { r with
    status := "failed"
    error_message := some message
    last_exception_type := some exception_type
    runtime_profile := some runtime_profile
    attempt_current := attempt_current
    attempt_max := attempt_max
    failed_at := some now
    speed_bps := none
    eta_seconds := none
    updated_at := now }

/-- The value stored in `media_ext` by `set_completed`:
`os.path.splitext(media_local_path or "")[1].lstrip(".") or info.get("ext")`. -/
def mediaExtValue (media_local_path : Option String) (info : PyDict) : Option PyVal :=
  let e := String.mk (((splitext (media_local_path.getD "")).2).data.dropWhile (fun c => c = '.'))
  if e ≠ "" then some (.pyStr e) else dictGet "ext" info

/-- `set_completed`: `info = info or {}`; the metadata blob is serialised
by `_to_json_string` *before* the UPDATE runs, so a serialisation
exception aborts the transition (modelled by `Except`); the UPDATE itself
is unconditional on the id and does not touch `failed_at`. -/
def set_completed (runtime_profile : String) (attempt_current attempt_max : Int)
    (info : Option PyDict) (media_local_path thumbnail_local_path : Option String)
    (now : String) (r : Row) : Except String Row :=
  let info := info.getD PyDict.nil
  match to_json_string (.pyDict info) with
  | .error e => .error e
  | .ok metadata_json => .ok { r with
    status := "completed"
    runtime_profile := some runtime_profile
    attempt_current := attempt_current
    attempt_max := attempt_max
    webpage_url := dictGet "webpage_url" info
    extractor := dictGet "extractor" info
    extractor_key := dictGet "extractor_key" info
    video_id := dictGet "id" info
    title := dictGet "title" info
    uploader := dictGet "uploader" info
    uploader_id := dictGet "uploader_id" info
    channel := dictGet "channel" info
    channel_id := dictGet "channel_id" info
    duration_seconds := dictGet "duration" info
    upload_date := dictGet "upload_date" info
    thumbnail_remote_url := dictGet "thumbnail" info
    thumbnail_local_path := thumbnail_local_path
    media_local_path := media_local_path
    media_ext := mediaExtValue media_local_path info
    progress_percent := some 100
    speed_bps := none
    eta_seconds := none
    error_message := none
    last_exception_type := none
    metadata_json := some metadata_json
    completed_at := some now
    updated_at := now }

/-- `update_progress`: unconditional point-write of the telemetry columns. -/
def update_progress (progress_percent : Option ℚ) (downloaded_bytes total_bytes : Option Int)
    (speed_bps : Option ℚ) (eta_seconds : Option Int) (now : String) (r : Row) : Row :=
  { r with
    progress_percent := progress_percent
    downloaded_bytes := downloaded_bytes
    total_bytes := total_bytes
    speed_bps := speed_bps
    eta_seconds := eta_seconds
    updated_at := now }

/-- Effect of `recover_interrupted_downloads`' UPDATE on one row. -/
def recoverRow (now : String) (r : Row) : Row :=
  if r.status = "downloading" then
    { r with
      status := "failed"
      error_message := some "interrupted_by_restart"
      failed_at := some now
      updated_at := now }
  else r

/-- `recover_interrupted_downloads` over the whole table: the new table
and the rowcount the method returns. -/
def recover_interrupted_downloads (now : String) : List Row → List Row × Nat
  | [] => ([], 0)
  | r :: rs =>
      let (rs', n) := recover_interrupted_downloads now rs
      if r.status = "downloading" then (recoverRow now r :: rs', n + 1) else (r :: rs', n)

/-- `_row_to_dict`'s metadata field (`repository.py` lines 35-42): the
blob column, if truthy, is parsed with `json.loads`, and a
`JSONDecodeError` is caught and turned into `None` — the read itself is
total. `loads` is the parser, passed as a parameter. -/
def row_metadata {J : Type} (loads : String → Except Unit J)
    (metadata_json : Option String) : Option J :=
  match metadata_json with
  | none => none
  | some s =>
      if s ≠ "" then
        match loads s with
        | .ok v => some v
        | .error _ => none
      else none

/-! ### Legacy `/delete` handler (`app/main.py` `delete_video`)

Only the decision logic up to the first `os.remove` is modelled: the
handler either answers 400 (no filename), answers 403 (`Invalid path`), or
proceeds to remove `full_path` (when it exists) plus sidecars. -/

inductive DeleteOutcome where
  | noFilename : DeleteOutcome
  | invalidPath : DeleteOutcome
  | removeAttempt : String → DeleteOutcome
deriving DecidableEq

/-- `delete_video`: `full_path = os.path.join(BASE_DOWNLOAD_DIR, filename)`;
403 iff `os.path.commonpath([full_path, BASE_DOWNLOAD_DIR]) != BASE_DOWNLOAD_DIR`;
otherwise the handler goes on to `os.remove(full_path)` if it exists. -/
def delete_video (base : String) (filename : Option String) : DeleteOutcome :=
  match filename with
  | none => .noFilename
  | some f =>
      if f = "" then .noFilename
      else
        let full_path := posixJoin base f
        if ¬ (commonpath2 full_path base = base) then .invalidPath
        else .removeAttempt full_path

/-! ### Worker begin step (`QueueManager._worker`, lines 161-165)

For each planned attempt the worker first calls `set_downloading`; when
that returns False it re-reads the row and returns (observing a pause if
the status is `paused`). Only when it returns True does the attempt
execute. -/

inductive BeginOutcome where
  | runAttempt : Row → BeginOutcome
  | exitPausedObserved : BeginOutcome
  | exitOther : BeginOutcome

/-- One `set_downloading`-or-return step of `_worker` for attempt
`(attempt_no, runtime_profile)` out of `attempt_max`. -/
def worker_begin (attempt_no attempt_max : Int) (runtime_profile now : String)
    (r : Row) : BeginOutcome :=
  match set_downloading attempt_no attempt_max runtime_profile now r with
  | some r' => .runAttempt r'
  | none => if r.status = "paused" then .exitPausedObserved else .exitOther

/-! ### Progress hook (`QueueManager._download_with_progress.progress_hook`) -/

/-- The fields of the dict yt-dlp passes to the hook (`progress.get(...)`;
`none` = key absent or `None`). -/
structure ProgressMap where
  status : Option String
  downloaded_bytes : Option Int
  total_bytes : Option Int
  total_bytes_estimate : Option Int
  speed : Option ℚ
  eta : Option Int

/-- The hook closure's mutable state. -/
structure HookState where
  last_flush : ℚ
  last_bytes : Int
deriving DecidableEq

/-- What one hook invocation did: raised `PauseRequestedError`, returned
without a store write, or called `update_progress` with the given
arguments (also carrying the byte-counter delta and the new closure
state). -/
inductive HookEffect where
  | raisedPause : HookEffect
  | skipped : HookState → HookEffect
  | wrote : Option ℚ → Int → Option Int → Option ℚ → Option Int → Int → HookState → HookEffect
deriving DecidableEq

/-- Python `a or b` on optional ints (`None` and `0` are falsy). -/
def pyOrInt (a b : Option Int) : Option Int :=
  match a with
  | some x => if x = 0 then b else some x
  | none => b

/-- `total = int(total_raw) if total_raw else None` where
`total_raw = progress.get("total_bytes") or progress.get("total_bytes_estimate")`. -/
def hookTotal (p : ProgressMap) : Option Int :=
  match pyOrInt p.total_bytes p.total_bytes_estimate with
  | some t => if t = 0 then none else some t
  | none => none

/-- `downloaded = int(progress.get("downloaded_bytes") or 0)`. -/
def hookDownloaded (p : ProgressMap) : Int :=
  match p.downloaded_bytes with
  | some d => if d = 0 then 0 else d
  | none => 0

/-- `speed = float(progress.get("speed")) if progress.get("speed") else None`. -/
def hookSpeed (p : ProgressMap) : Option ℚ :=
  match p.speed with
  | some s => if s = 0 then none else some s
  | none => none

/-- `percent = None; if total and total > 0: percent = round(downloaded /
total * 100, 2)` (`hookTotal` never yields `some 0`, so truthiness of
`total` is subsumed by the sign test). -/
def hookPercent (p : ProgressMap) : Option ℚ :=
  match hookTotal p with
  | some t => if 0 < t then some (round2 ((hookDownloaded p : ℚ) / (t : ℚ) * 100)) else none
  | none => none

/-- One invocation of `progress_hook` (queue_manager.py lines 361-409). -/
def progress_hook (flush_interval : ℚ) (cancel : Bool) (now : ℚ)
    (p : ProgressMap) (st : HookState) : HookEffect :=
  if cancel then .raisedPause
  else if ¬ (p.status = some "downloading" ∨ p.status = some "finished") then .skipped st
  else
    let downloaded := hookDownloaded p
    if p.status = some "finished" then
      .wrote (some 100) downloaded (some ((hookTotal p).getD downloaded)) none (some 0)
        (max 0 (downloaded - st.last_bytes)) { st with last_bytes := downloaded }
    else
      if now - st.last_flush < flush_interval then .skipped st
      else
        .wrote (hookPercent p) downloaded (hookTotal p) (hookSpeed p) p.eta
          (max 0 (downloaded - st.last_bytes)) { last_flush := now, last_bytes := downloaded }

/-! ### Concrete instances used by witnesses and counterexamples -/

/-- Whether an `Except` computation succeeded. -/
def isOkE {ε α : Type} : Except ε α → Bool
  | .ok _ => true
  | .error _ => false

/-- Concrete job state after a retryable primary-attempt failure: the row
was created queued and moved to `downloading` by the first `begin`; the
failed download raises before any further row write, so the status is
still `downloading` when the worker loops to the fallback attempt. -/
def c1_row : Row :=
  (set_downloading 1 2 "primary" "t1"
    (create_download "job1" "https://www.youtube.com/watch?v=x" "best" "t0")).getD
    (create_download "job1" "https://www.youtube.com/watch?v=x" "best" "t0")

/-- A concrete failed row (a fresh job taken through `set_failed`). -/
def c5_row : Row :=
  set_failed "boom" "DownloadError" "primary" 1 1 "t1"
    (create_download "job5" "https://example.com/v" "best" "t0")

/-- The failed row after `retry_download`. -/
def c5_after : Row :=
  (retry_download "t2" c5_row).getD c5_row

/-- A concrete row stuck in `downloading` (for the recovery witness). -/
def c7_down : Row :=
  (set_downloading 1 1 "primary" "t1"
    (create_download "job7" "https://example.com/w" "best" "t0")).getD
    (create_download "job7" "https://example.com/w" "best" "t0")

/-- A two-row table: one interrupted download, one queued job. -/
def c7_rows : List Row :=
  [c7_down, create_download "job7b" "https://example.com/x" "best" "t0"]

/-- A concrete queued row (for the pause/resume witness). -/
def c8_row : Row :=
  create_download "job8" "https://example.com/y" "best" "t0"

/-- The queued row after `pause_queued`. -/
def c8_paused : Row :=
  (pause_queued "t1" c8_row).getD c8_row

/-- A concrete `finished` hook invocation (1000 of 1000 bytes). -/
def c6_p : ProgressMap :=
  { status := some "finished", downloaded_bytes := some 1000,
    total_bytes := some 1000, total_bytes_estimate := none,
    speed := none, eta := none }

/-- A concrete `downloading` hook invocation (500 of 1000 bytes). -/
def c6_pDown : ProgressMap :=
  { status := some "downloading", downloaded_bytes := some 500,
    total_bytes := some 1000, total_bytes_estimate := none,
    speed := some 250, eta := some 2 }

/-- Hook closure state before the invocations above. -/
def c6_st : HookState := { last_flush := 0, last_bytes := 0 }

/-- A concrete metadata dict with a non-serialisable value under a string
key (the shape the serialisation test exercises). -/
def c4_info : PyDict :=
  .cons (.pyStr "id") (.pyStr "job-meta")
    (.cons (.pyStr "postprocessor") (.pyObj "NonSerializableValue") .nil)

/-- A toy `json.loads`: fails exactly on the blob `"bad"`. -/
def loadsEx : String → Except Unit Nat :=
  fun s => if s = "bad" then .error () else .ok 0

/-- A fresh queued row (so `started_at` is NULL). -/
def c9_row : Row :=
  create_download "job9" "https://example.com/z" "best" "t0"

/-- The fresh row after its first `set_downloading`. -/
def c9_after : Row :=
  (set_downloading 1 1 "primary" "t1" c9_row).getD c9_row

/-- A fresh row for the timestamp-exclusivity witness. -/
def c3_base : Row :=
  create_download "job3w" "https://example.com/q" "best" "t0"

/-! ### Theorems -/

/-- C1 (code_bug evaluation): with the job row still in `downloading`
after a retryable primary failure, the re-invoked `set_downloading(job, 2,
2, "fallback")` matches zero rows (its guard accepts only
`queued`/`retrying`, and no transition ever writes `retrying`), so the
worker takes the early-return branch instead of running the fallback
attempt, leaving the job in `downloading` — contradicting the claim that
the begin transition applies and the fallback attempt executes. -/
theorem worker_fallback_begin_leaves_downloading :
    c1_row.status = "downloading" ∧
    set_downloading 2 2 "fallback" "t2" c1_row = none ∧
    worker_begin 2 2 "fallback" "t2" c1_row = .exitOther :=
  ⟨rfl, rfl, rfl⟩

/-- C2 (code_bug evaluation): for `filename = "../../etc/passwd"` the
legacy `/delete` handler's `commonpath` check passes (`commonpath` keeps
`..` components unresolved, so the common path of
`/data/../../etc/passwd` and `/data` is `/data`), hence the handler does
not answer 403 but proceeds to `os.remove` a path whose real location is
`/etc/passwd`, outside the storage root. -/
theorem delete_video_traversal_not_rejected :
    delete_video "/data" (some "../../etc/passwd") =
      .removeAttempt "/data/../../etc/passwd" ∧
    normAbs (posixJoin "/data" "../../etc/passwd") = "/etc/passwd" ∧
    isUnderRoot "/data" (normAbs (posixJoin "/data" "../../etc/passwd")) = false := by
  refine ⟨by decide, by decide, by decide⟩

/-- C3 (counterexample): applying `set_failed` to a row that
`set_completed` has just completed yields `status = "failed"` with *both*
`completed_at` and `failed_at` set — `set_failed` never clears
`completed_at` — refuting "for every sequence of store transitions,
exactly one of the timestamps is non-null when status ∈ {completed,
failed}". -/
theorem completed_then_failed_both_timestamps :
    ((set_completed "primary" 1 1 none none none "t1"
        (create_download "job3" "u" "best" "t0")).map
      (fun r =>
        let r2 := set_failed "boom" "DownloadError" "primary" 1 1 "t2" r
        (r2.status, r2.completed_at.isSome, r2.failed_at.isSome))) =
    .ok ("failed", true, true) := rfl

/-- C4 (counterexample): a metadata dict with a key the JSON encoder
refuses (here a list) makes `_to_json_string` raise: the first
`json.dumps` raises `TypeError`, and the `default=str` retry raises
`TypeError` again because `default` is never applied to keys — so
serialisation *can* fail `set_completed`, refuting "returns a JSON string
without raising for dicts containing keys the native encoder refuses". -/
theorem to_json_string_raises_on_list_key :
    to_json_string (.pyDict (.cons (.pyList .nil) (.pyStr "x") .nil)) =
      .error "TypeError" ∧
    set_completed "primary" 1 1 (some (.cons (.pyList .nil) (.pyStr "x") .nil))
        none none "t1" (create_download "job4" "u" "best" "t0") =
      .error "TypeError" :=
  ⟨rfl, rfl⟩

/-- C5: `retry_download` applies exactly when the row status is `failed`
or `paused`; when it applies it sets status `queued`, increments
`attempt_max` by exactly 1, and zeroes/clears the progress fields
(`progress_percent = 0`, `downloaded_bytes = 0`, `attempt_current = 0`,
`total_bytes`/`speed_bps`/`eta_seconds`/`error_message` NULL); otherwise
`retry_job` answers `(False, "invalid_state")` with the row unchanged. -/
theorem retry_download_spec (r : Row) (now : String) :
    ((retry_download now r).isSome ↔ (r.status = "failed" ∨ r.status = "paused")) ∧
    (∀ r', retry_download now r = some r' →
      r'.status = "queued" ∧ r'.attempt_max = r.attempt_max + 1 ∧
      r'.progress_percent = some 0 ∧ r'.downloaded_bytes = some 0 ∧
      r'.attempt_current = 0 ∧ r'.total_bytes = none ∧ r'.speed_bps = none ∧
      r'.eta_seconds = none ∧ r'.error_message = none) ∧
    (¬ (r.status = "failed" ∨ r.status = "paused") →
      retry_job now r = (false, "invalid_state", r)) := by
  by_cases h : r.status = "failed" ∨ r.status = "paused" <;>
    simp [retry_download, retry_job, h]

/-- Witness for C5 at a concrete failed row. -/
theorem retry_download_spec_w :
    retry_download "t2" c5_row = some c5_after ∧
    c5_after.status = "queued" ∧ c5_after.attempt_max = c5_row.attempt_max + 1 :=
  ⟨rfl, ((retry_download_spec c5_row "t2").2.1 c5_after rfl).1,
    ((retry_download_spec c5_row "t2").2.1 c5_after rfl).2.1⟩

/-- C8: `pause_queued` applies exactly on a `queued` row and yields
`paused`; `resume_paused` applies exactly on a `paused` row and yields
`queued` with `paused_at`, `error_message`, `eta_seconds` and `speed_bps`
cleared; composing pause then resume returns the job to `queued`; resume
on a non-paused row matches zero rows (the control plane then answers
`invalid_state`), leaving the row unchanged. -/
theorem pause_resume_spec (r : Row) (t1 t2 : String) :
    ((pause_queued t1 r).isSome ↔ r.status = "queued") ∧
    (∀ r1, pause_queued t1 r = some r1 →
      r1.status = "paused" ∧ r1.paused_at = some t1 ∧
      ∃ r2, resume_paused t2 r1 = some r2 ∧ r2.status = "queued") ∧
    ((resume_paused t2 r).isSome ↔ r.status = "paused") ∧
    (∀ r2, resume_paused t2 r = some r2 →
      r2.status = "queued" ∧ r2.paused_at = none ∧ r2.error_message = none ∧
      r2.eta_seconds = none ∧ r2.speed_bps = none) ∧
    (r.status ≠ "paused" → resume_paused t2 r = none) := by
  by_cases hq : r.status = "queued" <;> by_cases hp : r.status = "paused" <;>
    simp_all [pause_queued, resume_paused]

/-- Witness for C8 at a concrete queued row. -/
theorem pause_resume_spec_w :
    pause_queued "t1" c8_row = some c8_paused ∧
    c8_paused.status = "paused" ∧
    ∃ r2, resume_paused "t2" c8_paused = some r2 ∧ r2.status = "queued" :=
  ⟨rfl, ((pause_resume_spec c8_row "t1" "t2").2.1 c8_paused rfl).1,
    ((pause_resume_spec c8_row "t1" "t2").2.1 c8_paused rfl).2.2⟩

/-- Recovery leaves the table pointwise equal to mapping `recoverRow`. -/
theorem recover_fst (t : String) (rows : List Row) :
    (recover_interrupted_downloads t rows).1 = rows.map (recoverRow t) := by
  induction rows with
  | nil => rfl
  | cons r rs ih =>
      by_cases h : r.status = "downloading" <;>
        simp [recover_interrupted_downloads, recoverRow, h, ih]

/-- Recovery's rowcount is the number of `downloading` rows. -/
theorem recover_snd (t : String) (rows : List Row) :
    (recover_interrupted_downloads t rows).2 =
      rows.countP (fun r => r.status == "downloading") := by
  induction rows with
  | nil => rfl
  | cons r rs ih =>
      by_cases h : r.status = "downloading" <;>
        simp [recover_interrupted_downloads, List.countP_cons, h, ih]

/-- A recovered row is never `downloading`. -/
theorem recoverRow_status (t : String) (r : Row) :
    (recoverRow t r).status ≠ "downloading" := by
  unfold recoverRow
  by_cases h : r.status = "downloading" <;> simp [h]

/-- Rows not in `downloading` are untouched by recovery. -/
theorem recoverRow_id_of_ne (t : String) (r : Row) (h : r.status ≠ "downloading") :
    recoverRow t r = r := by
  simp [recoverRow, h]

/-- C7: recovery updates exactly the `downloading` rows — setting
`status = failed`, `error_message = "interrupted_by_restart"`,
`failed_at` and `updated_at` — returns their count, leaves every other
row byte-identical, and is idempotent: a second run updates zero rows and
changes nothing. -/
theorem recovery_spec (rows : List Row) (t1 t2 : String) :
    (recover_interrupted_downloads t1 rows).1 = rows.map (recoverRow t1) ∧
    (recover_interrupted_downloads t1 rows).2 =
      rows.countP (fun r => r.status == "downloading") ∧
    (∀ r : Row, r.status = "downloading" → recoverRow t1 r =
      { r with status := "failed", error_message := some "interrupted_by_restart",
               failed_at := some t1, updated_at := t1 }) ∧
    (∀ r : Row, r.status ≠ "downloading" → recoverRow t1 r = r) ∧
    (recover_interrupted_downloads t2 (recover_interrupted_downloads t1 rows).1).1 =
      (recover_interrupted_downloads t1 rows).1 ∧
    (recover_interrupted_downloads t2 (recover_interrupted_downloads t1 rows).1).2 = 0 := by
  refine ⟨recover_fst t1 rows, recover_snd t1 rows, ?_, ?_, ?_, ?_⟩
  · intro r h; simp [recoverRow, h]
  · intro r h; exact recoverRow_id_of_ne t1 r h
  · rw [recover_fst, recover_fst, List.map_map]
    refine List.map_congr_left ?_
    intro r _
    exact recoverRow_id_of_ne t2 _ (recoverRow_status t1 r)
  · rw [recover_snd, recover_fst]
    rw [List.countP_eq_zero]
    intro r hr
    rcases List.mem_map.mp hr with ⟨r0, _, rfl⟩
    simpa using recoverRow_status t1 r0

/-- Witness for C7: one interrupted and one queued row; the run marks
exactly the interrupted one and reports count 1. -/
theorem recovery_spec_w :
    c7_down.status = "downloading" ∧
    recoverRow "t2" c7_down =
      { c7_down with status := "failed",
                     error_message := some "interrupted_by_restart",
                     failed_at := some "t2", updated_at := "t2" } ∧
    (recover_interrupted_downloads "t2" c7_rows).2 = 1 :=
  ⟨rfl, (recovery_spec c7_rows "t2" "t3").2.2.1 c7_down rfl, rfl⟩

/-- C9: `set_downloading` applies exactly from `queued`/`retrying`; the
COALESCE keeps an already-set `started_at` and fills it with `now` only
when it was NULL (so `started_at` records the first begin); it writes
exactly the columns `status`, `started_at`, `attempt_current`,
`attempt_max`, `runtime_profile`, `error_message`, `last_exception_type`,
`updated_at`, leaving all other columns unchanged; and no other store
transition ever writes `started_at`. -/
theorem set_downloading_frame_spec (r : Row) (a m : Int) (p now : String) :
    ((set_downloading a m p now r).isSome ↔ (r.status = "queued" ∨ r.status = "retrying")) ∧
    (∀ r', set_downloading a m p now r = some r' →
      (r.started_at = none → r'.started_at = some now) ∧
      (∀ t, r.started_at = some t → r'.started_at = some t) ∧
      r'.status = "downloading" ∧ r'.attempt_current = a ∧ r'.attempt_max = m ∧
      r'.runtime_profile = some p ∧ r'.error_message = none ∧
      r'.last_exception_type = none ∧ r'.updated_at = now ∧
      r'.id = r.id ∧ r'.requested_url = r.requested_url ∧
      r'.canonical_url = r.canonical_url ∧ r'.webpage_url = r.webpage_url ∧
      r'.extractor = r.extractor ∧ r'.extractor_key = r.extractor_key ∧
      r'.video_id = r.video_id ∧ r'.title = r.title ∧ r'.uploader = r.uploader ∧
      r'.uploader_id = r.uploader_id ∧ r'.channel = r.channel ∧
      r'.channel_id = r.channel_id ∧ r'.duration_seconds = r.duration_seconds ∧
      r'.upload_date = r.upload_date ∧
      r'.thumbnail_remote_url = r.thumbnail_remote_url ∧
      r'.thumbnail_local_path = r.thumbnail_local_path ∧
      r'.media_local_path = r.media_local_path ∧ r'.media_ext = r.media_ext ∧
      r'.preset = r.preset ∧ r'.queue_position = r.queue_position ∧
      r'.progress_percent = r.progress_percent ∧
      r'.downloaded_bytes = r.downloaded_bytes ∧ r'.total_bytes = r.total_bytes ∧
      r'.speed_bps = r.speed_bps ∧ r'.eta_seconds = r.eta_seconds ∧
      r'.metadata_json = r.metadata_json ∧ r'.created_at = r.created_at ∧
      r'.queued_at = r.queued_at ∧ r'.paused_at = r.paused_at ∧
      r'.completed_at = r.completed_at ∧ r'.failed_at = r.failed_at) ∧
    (∀ r', pause_queued now r = some r' → r'.started_at = r.started_at) ∧
    (∀ r', resume_paused now r = some r' → r'.started_at = r.started_at) ∧
    (∀ r', retry_download now r = some r' → r'.started_at = r.started_at) ∧
    (∀ msg, (set_paused msg now r).started_at = r.started_at) ∧
    (∀ msg et rp ac am, (set_failed msg et rp ac am now r).started_at = r.started_at) ∧
    (∀ pp db tb sp es, (update_progress pp db tb sp es now r).started_at = r.started_at) ∧
    ((recoverRow now r).started_at = r.started_at) ∧
    (∀ rp ac am info mlp tlp r', set_completed rp ac am info mlp tlp now r = .ok r' →
      r'.started_at = r.started_at) := by
  refine ⟨?_, ?_, ?_, ?_, ?_, ?_, ?_, ?_, ?_, ?_⟩
  · by_cases h : r.status = "queued" ∨ r.status = "retrying" <;> simp [set_downloading, h]
  · intro r' h
    by_cases hg : r.status = "queued" ∨ r.status = "retrying"
    · simp only [set_downloading, if_pos hg, Option.some.injEq] at h
      subst h
      refine ⟨fun hn => by simp [hn], fun t ht => by simp [ht], ?_⟩
      repeat' constructor
    · simp [set_downloading, hg] at h
  · intro r' h
    by_cases hg : r.status = "queued"
    · simp only [pause_queued, if_pos hg, Option.some.injEq] at h; subst h; rfl
    · simp [pause_queued, hg] at h
  · intro r' h
    by_cases hg : r.status = "paused"
    · simp only [resume_paused, if_pos hg, Option.some.injEq] at h; subst h; rfl
    · simp [resume_paused, hg] at h
  · intro r' h
    by_cases hg : r.status = "failed" ∨ r.status = "paused"
    · simp only [retry_download, if_pos hg, Option.some.injEq] at h; subst h; rfl
    · simp [retry_download, hg] at h
  · intro msg; rfl
  · intro msg et rp ac am; rfl
  · intro pp db tb sp es; rfl
  · unfold recoverRow; by_cases h : r.status = "downloading" <;> simp [h]
  · intro rp ac am info mlp tlp r' h
    simp only [set_completed] at h
    split at h
    · cases h
    · simp only [Except.ok.injEq] at h; subst h; rfl

/-- Witness for C9: the first begin on a fresh row fills `started_at`
with `now`, and the frame holds at this instance. -/
theorem set_downloading_frame_spec_w :
    set_downloading 1 1 "primary" "t1" c9_row = some c9_after ∧
    c9_row.started_at = none ∧
    c9_after.started_at = some "t1" := by
  have h := (set_downloading_frame_spec c9_row 1 1 "primary" "t1").2.1 c9_after rfl
  exact ⟨rfl, rfl, h.1 rfl⟩

/-- C3 (amended): `set_failed` sets `failed_at` and leaves `completed_at`
untouched, and `set_completed` sets `completed_at` and leaves `failed_at`
untouched; so exactly one of the two timestamps is set after `set_failed`
on a row whose `completed_at` is NULL and after `set_completed` on a row
whose `failed_at` is NULL (creation and `retry_download` give such rows,
both timestamps NULL) — but not after arbitrary sequences, since neither
transition clears the other's timestamp. -/
theorem failed_completed_timestamp_exclusive :
    (∀ (r : Row) msg et rp (ac am : Int) now, r.completed_at = none →
      (set_failed msg et rp ac am now r).status = "failed" ∧
      (set_failed msg et rp ac am now r).failed_at = some now ∧
      (set_failed msg et rp ac am now r).completed_at = none) ∧
    (∀ (r : Row) rp (ac am : Int) info mlp tlp now r', r.failed_at = none →
      set_completed rp ac am info mlp tlp now r = .ok r' →
      r'.status = "completed" ∧ r'.completed_at = some now ∧ r'.failed_at = none) ∧
    (∀ i u pr now, (create_download i u pr now).completed_at = none ∧
      (create_download i u pr now).failed_at = none) ∧
    (∀ (r : Row) now r', retry_download now r = some r' →
      r'.completed_at = none ∧ r'.failed_at = none) := by
  refine ⟨?_, ?_, ?_, ?_⟩
  · intro r msg et rp ac am now h
    exact ⟨rfl, rfl, h⟩
  · intro r rp ac am info mlp tlp now r' hf h
    simp only [set_completed] at h
    split at h
    · cases h
    · simp only [Except.ok.injEq] at h; subst h; exact ⟨rfl, rfl, hf⟩
  · intro i u pr now; exact ⟨rfl, rfl⟩
  · intro r now r' h
    by_cases hg : r.status = "failed" ∨ r.status = "paused"
    · simp only [retry_download, if_pos hg, Option.some.injEq] at h
      subst h; exact ⟨rfl, rfl⟩
    · simp [retry_download, hg] at h

/-- Witness for C3's amended statement: `set_failed` on a fresh row
(whose `completed_at` is NULL) sets exactly `failed_at`. -/
theorem failed_completed_timestamp_exclusive_w :
    c3_base.completed_at = none ∧
    (set_failed "boom" "E" "primary" 1 1 "t1" c3_base).failed_at = some "t1" ∧
    (set_failed "boom" "E" "primary" 1 1 "t1" c3_base).completed_at = none :=
  ⟨rfl,
    (failed_completed_timestamp_exclusive.1 c3_base "boom" "E" "primary" 1 1 "t1" rfl).2.1,
    (failed_completed_timestamp_exclusive.1 c3_base "boom" "E" "primary" 1 1 "t1" rfl).2.2⟩

/-- C10: the read path is total with respect to the persisted metadata
blob. For every stored row, the metadata field computed by `_row_to_dict`
(hence by `get_download`) is NULL when the blob is NULL or empty and NULL
when the parser raises `JSONDecodeError`; only a non-empty blob the
parser accepts yields a parsed value — the read never propagates a parse
error. -/
theorem row_metadata_total {J : Type} (loads : String → Except Unit J)
    (mj : Option String) :
    (mj = none → row_metadata loads mj = none) ∧
    (row_metadata loads (some "") = none) ∧
    (∀ s e, loads s = .error e → row_metadata loads (some s) = none) ∧
    (∀ s v, s ≠ "" → loads s = .ok v → row_metadata loads (some s) = some v) := by
  refine ⟨?_, ?_, ?_, ?_⟩
  · intro h; subst h; rfl
  · rfl
  · intro s e h
    by_cases hs : s = ""
    · subst hs; rfl
    · simp [row_metadata, hs, h]
  · intro s v hs h
    simp [row_metadata, hs, h]

/-- Witness for C10 with a concrete parser that rejects the blob `"bad"`:
the read still answers NULL. -/
theorem row_metadata_total_w :
    loadsEx "bad" = .error () ∧ row_metadata loadsEx (some "bad") = none :=
  ⟨rfl, (row_metadata_total loadsEx (some "bad")).2.2.1 "bad" () rfl⟩

/-- C6: the progress hook (with the cancel signal clear) writes a
terminal `update_progress(100.0, downloaded, total-or-downloaded, None,
0)` on `status = finished` with no rate limiting; on `status =
downloading` it returns without any store write when `monotonic_now −
last_flush < flush_interval`, and otherwise writes `percent =
round(downloaded / total * 100, 2)` when a positive total is known and
`percent = None` when no positive total is known (absent/zero total, or a
non-positive value). -/
theorem progress_hook_spec (fi now : ℚ) (p : ProgressMap) (st : HookState) :
    (p.status = some "finished" →
      progress_hook fi false now p st =
        .wrote (some 100) (hookDownloaded p)
          (some ((hookTotal p).getD (hookDownloaded p))) none (some 0)
          (max 0 (hookDownloaded p - st.last_bytes))
          { st with last_bytes := hookDownloaded p }) ∧
    (p.status = some "downloading" → now - st.last_flush < fi →
      progress_hook fi false now p st = .skipped st) ∧
    (p.status = some "downloading" → ¬ (now - st.last_flush < fi) →
      progress_hook fi false now p st =
        .wrote (hookPercent p) (hookDownloaded p) (hookTotal p) (hookSpeed p) p.eta
          (max 0 (hookDownloaded p - st.last_bytes))
          { last_flush := now, last_bytes := hookDownloaded p }) ∧
    (∀ t, hookTotal p = some t → 0 < t →
      hookPercent p = some (round2 ((hookDownloaded p : ℚ) / (t : ℚ) * 100))) ∧
    (∀ t, hookTotal p = some t → ¬ 0 < t → hookPercent p = none) ∧
    (hookTotal p = none → hookPercent p = none) := by
  refine ⟨?_, ?_, ?_, ?_, ?_, ?_⟩
  · intro h; simp [progress_hook, h]
  · intro h hlt; simp [progress_hook, h, hlt]
  · intro h hlt; simp [progress_hook, h, hlt]
  · intro t ht hpos; simp [hookPercent, ht, hpos]
  · intro t ht hpos; simp [hookPercent, ht, hpos]
  · intro ht; simp [hookPercent, ht]

/-- Witness for C6: a concrete `finished` event (1000 of 1000 bytes)
yields the terminal percent-100 write, and a concrete rate-limited
`downloading` event (now 0.1, flush interval 0.75) writes nothing. -/
theorem progress_hook_spec_w :
    c6_p.status = some "finished" ∧
    progress_hook (3/4) false 1 c6_p c6_st =
      .wrote (some 100) (hookDownloaded c6_p)
        (some ((hookTotal c6_p).getD (hookDownloaded c6_p))) none (some 0)
        (max 0 (hookDownloaded c6_p - c6_st.last_bytes))
        { c6_st with last_bytes := hookDownloaded c6_p } ∧
    progress_hook (3/4) false (1/10) c6_pDown c6_st = .skipped c6_st :=
  ⟨rfl, (progress_hook_spec (3/4) 1 c6_p c6_st).1 rfl,
    (progress_hook_spec (3/4) (1/10) c6_pDown c6_st).2.1 rfl (by norm_num [c6_st])⟩

/-- Valid keys are rendered without error. -/
theorem keyRepr_ok (k : PyVal) (h : isKeyType k = true) :
    isOkE (keyRepr k) = true := by
  cases k with
  | pyStr s => rfl
  | pyInt n => rfl
  | pyBool b => cases b <;> rfl
  | pyNone => rfl
  | pyObj r => simp [isKeyType] at h
  | pyList xs => simp [isKeyType] at h
  | pyDict es => simp [isKeyType] at h

mutual
/-- With `default=str`, `json.dumps` succeeds on every value whose dict
keys are all encodable key types. -/
theorem dumpsVal_ok : ∀ v : PyVal, validKeysVal v = true → isOkE (dumpsVal true v) = true
  | .pyNone, _ => rfl
  | .pyBool true, _ => rfl
  | .pyBool false, _ => rfl
  | .pyInt _, _ => rfl
  | .pyStr _, _ => rfl
  | .pyObj _, _ => rfl
  | .pyList xs, h => by
      have ih := dumpsList_ok xs (by simpa [validKeysVal] using h)
      simp only [dumpsVal]
      cases hx : dumpsList true xs with
      | ok l => simp [Except.map, isOkE]
      | error e => rw [hx] at ih; simp [isOkE] at ih
  | .pyDict es, h => by
      have ih := dumpsDict_ok es (by simpa [validKeysVal] using h)
      simp only [dumpsVal]
      cases hx : dumpsDict true es with
      | ok l => simp [Except.map, isOkE]
      | error e => rw [hx] at ih; simp [isOkE] at ih

/-- Elementwise success for lists. -/
theorem dumpsList_ok : ∀ xs : PyList, validKeysList xs = true → isOkE (dumpsList true xs) = true
  | .nil, _ => rfl
  | .cons x xs, h => by
      rw [validKeysList, Bool.and_eq_true] at h
      have hx := dumpsVal_ok x h.1
      have hxs := dumpsList_ok xs h.2
      simp only [dumpsList]
      cases h1 : dumpsVal true x with
      | error e => rw [h1] at hx; simp [isOkE] at hx
      | ok s =>
          cases h2 : dumpsList true xs with
          | error e => rw [h2] at hxs; simp [isOkE] at hxs
          | ok rest => simp [h1, h2, isOkE, Bind.bind, Except.bind]

/-- Entrywise success for dicts with encodable keys. -/
theorem dumpsDict_ok : ∀ es : PyDict, validKeysDict es = true → isOkE (dumpsDict true es) = true
  | .nil, _ => rfl
  | .cons k v es, h => by
      rw [validKeysDict, Bool.and_eq_true, Bool.and_eq_true] at h
      have hk := keyRepr_ok k h.1.1
      have hv := dumpsVal_ok v h.1.2
      have hes := dumpsDict_ok es h.2
      simp only [dumpsDict]
      cases h1 : keyRepr k with
      | error e => rw [h1] at hk; simp [isOkE] at hk
      | ok ks =>
          cases h2 : dumpsVal true v with
          | error e => rw [h2] at hv; simp [isOkE] at hv
          | ok vs =>
              cases h3 : dumpsDict true es with
              | error e => rw [h3] at hes; simp [isOkE] at hes
              | ok rest => simp [h1, h2, h3, isOkE, Bind.bind, Except.bind]
end

/-- `keyRepr` only ever raises `TypeError`. -/
theorem keyRepr_err (k : PyVal) (e : String) (h : keyRepr k = .error e) :
    e = "TypeError" := by
  cases k with
  | pyStr s => cases h
  | pyInt n => cases h
  | pyBool b => cases b <;> cases h
  | pyNone => cases h
  | pyObj r => cases h; rfl
  | pyList xs => cases h; rfl
  | pyDict es => cases h; rfl

mutual
/-- With or without `default=str`, every exception `json.dumps` raises in
this model is a `TypeError`. -/
theorem dumpsVal_err : ∀ (u : Bool) (v : PyVal) (e : String),
    dumpsVal u v = .error e → e = "TypeError"
  | u, .pyNone, e => fun h => by cases h
  | u, .pyBool true, e => fun h => by cases h
  | u, .pyBool false, e => fun h => by cases h
  | u, .pyInt _, e => fun h => by cases h
  | u, .pyStr _, e => fun h => by cases h
  | u, .pyObj r, e => fun h => by
      cases u with
      | true => cases h
      | false => cases h; rfl
  | u, .pyList xs, e => fun h => by
      simp only [dumpsVal] at h
      cases hx : dumpsList u xs with
      | ok l => rw [hx] at h; simp [Except.map] at h
      | error e2 =>
          rw [hx] at h
          simp only [Except.map, Except.error.injEq] at h
          subst h
          exact dumpsList_err u xs e2 hx
  | u, .pyDict es, e => fun h => by
      simp only [dumpsVal] at h
      cases hx : dumpsDict u es with
      | ok l => rw [hx] at h; simp [Except.map] at h
      | error e2 =>
          rw [hx] at h
          simp only [Except.map, Except.error.injEq] at h
          subst h
          exact dumpsDict_err u es e2 hx

/-- List case of the error classification. -/
theorem dumpsList_err : ∀ (u : Bool) (xs : PyList) (e : String),
    dumpsList u xs = .error e → e = "TypeError"
  | u, .nil, e => fun h => by cases h
  | u, .cons x xs, e => fun h => by
      simp only [dumpsList] at h
      cases h1 : dumpsVal u x with
      | error e1 =>
          rw [h1] at h
          simp only [Bind.bind, Except.bind, Except.error.injEq] at h
          subst h
          exact dumpsVal_err u x e1 h1
      | ok s =>
          rw [h1] at h
          simp only [Bind.bind, Except.bind] at h
          cases h2 : dumpsList u xs with
          | error e2 =>
              rw [h2] at h
              simp only [Except.error.injEq] at h
              subst h
              exact dumpsList_err u xs e2 h2
          | ok rest => rw [h2] at h; cases h

/-- Dict case of the error classification. -/
theorem dumpsDict_err : ∀ (u : Bool) (es : PyDict) (e : String),
    dumpsDict u es = .error e → e = "TypeError"
  | u, .nil, e => fun h => by cases h
  | u, .cons k v es, e => fun h => by
      simp only [dumpsDict] at h
      cases h1 : keyRepr k with
      | error e1 =>
          rw [h1] at h
          simp only [Bind.bind, Except.bind, Except.error.injEq] at h
          subst h
          exact keyRepr_err k e1 h1
      | ok ks =>
          rw [h1] at h
          simp only [Bind.bind, Except.bind] at h
          cases h2 : dumpsVal u v with
          | error e2 =>
              rw [h2] at h
              simp only [Except.error.injEq] at h
              subst h
              exact dumpsVal_err u v e2 h2
          | ok vs =>
              rw [h2] at h
              cases h3 : dumpsDict u es with
              | error e3 =>
                  rw [h3] at h
                  simp only [Except.error.injEq] at h
                  subst h
                  exact dumpsDict_err u es e3 h3
              | ok rest => rw [h3] at h; cases h
end

/-- On any value whose dict keys are all encodable, `_to_json_string`
succeeds: the only exception the first `json.dumps` can raise is a
`TypeError`, which is caught, and the `default=str` retry succeeds. -/
theorem to_json_string_ok (v : PyVal) (h : validKeysVal v = true) :
    isOkE (to_json_string v) = true := by
  unfold to_json_string
  cases hx : dumpsVal false v with
  | ok s => rfl
  | error e =>
      have he : e = "TypeError" := dumpsVal_err false v e hx
      subst he
      simpa using dumpsVal_ok v h

/-- C4 (amended): for every metadata dict whose keys — at every nesting
level — are types the JSON encoder accepts as keys, `_to_json_string`
returns a JSON string without raising, coercing each offending value via
`str` through the `default=str` fallback, so serialisation never fails
`set_completed` for such inputs. (Inputs with unencodable *keys* — and
cyclic ones, whose `ValueError` the fallback does not catch — still
raise; see the counterexample.) -/
theorem to_json_string_total_on_valid_keys :
    (∀ v : PyVal, validKeysVal v = true → isOkE (to_json_string v) = true) ∧
    (∀ (es : PyDict) (rp : String) (ac am : Int) (mlp tlp : Option String)
       (now : String) (r : Row), validKeysDict es = true →
       isOkE (set_completed rp ac am (some es) mlp tlp now r) = true) := by
  refine ⟨to_json_string_ok, ?_⟩
  intro es rp ac am mlp tlp now r h
  have hok := to_json_string_ok (.pyDict es) (by simpa [validKeysVal] using h)
  simp only [set_completed, Option.getD_some]
  cases hx : to_json_string (.pyDict es) with
  | ok s => simp [hx, isOkE]
  | error e => rw [hx] at hok; simp [isOkE] at hok

/-- Witness for C4's amended statement: the serialisation-test dict (a
string-keyed dict holding a non-serialisable object) is serialised
without raising, and `set_completed` succeeds on it. -/
theorem to_json_string_total_on_valid_keys_w :
    validKeysDict c4_info = true ∧
    isOkE (to_json_string (.pyDict c4_info)) = true ∧
    isOkE (set_completed "primary" 1 1 (some c4_info) none none "t1"
      (create_download "job-meta" "https://youtube.com/watch?v=job-meta" "best" "t0")) = true :=
  ⟨rfl, to_json_string_total_on_valid_keys.1 (.pyDict c4_info) rfl,
    to_json_string_total_on_valid_keys.2 c4_info "primary" 1 1 none none "t1"
      (create_download "job-meta" "https://youtube.com/watch?v=job-meta" "best" "t0") rfl⟩
